import Mathlib

/-!
Verification development for the FUE License Optimizer backend
(`app/models/dynamic_models.py`, `app/service/data_loader_service.py`).

Strings are embedded as lists of Unicode codepoints (`List Nat`); byte
inputs are lists of byte values.  Python's `re` word-character class and
`str.upper` are modelled on their ASCII core, which is the fragment the
generated identifiers actually use.
-/

/-- Codepoints of a string literal, used to write concrete identifiers. -/
def cps (s : String) : List Nat := s.toList.map Char.toNat

/-- First-match association-list lookup, modelling Python `dict.get` /
`dict.__contains__` over an insert-at-front representation. -/
def lookupL {β : Type} : List (List Nat × β) → List Nat → Option β
  | [], _ => none
  | (k, v) :: rest, key => if k = key then some v else lookupL rest key

/-- ASCII core of Python's regex word class `\w`: alphanumeric or underscore. -/
def isWordCp (c : Nat) : Bool :=
  decide ((48 ≤ c ∧ c ≤ 57) ∨ (65 ≤ c ∧ c ≤ 90) ∨ (97 ≤ c ∧ c ≤ 122) ∨ c = 95)

/-- ASCII core of Python `str.upper` on a single codepoint. -/
def upperCp (c : Nat) : Nat := if 97 ≤ c ∧ c ≤ 122 then c - 32 else c

/-- One codepoint of Python `str.replace(' ', '_')`: the space character
(and only the space character, 32) becomes an underscore (95). -/
def replSpaceCp (c : Nat) : Nat := if c = 32 then 95 else c

/-- `clean_client_name` from `app/models/dynamic_models.py`:
`re.sub(r'\W+', '', client_name.replace(' ', '_')).upper()` — replace
spaces by underscores, drop the remaining non-word characters, uppercase. -/
def clean_client_name (s : List Nat) : List Nat :=
  ((s.map replSpaceCp).filter isWordCp).map upperCp

/-- `clean_system_name` from `app/models/dynamic_models.py`; its body is
identical to `clean_client_name`. -/
def clean_system_name (s : List Nat) : List Nat :=
  ((s.map replSpaceCp).filter isWordCp).map upperCp

/-- `get_lice_data_tablename` from `app/models/dynamic_models.py`. -/
def get_lice_data_tablename (client_name system_name : List Nat) : List Nat :=
  cps "Z_FUE_" ++ clean_client_name client_name ++ cps "_" ++
    clean_system_name system_name ++ cps "_ROLE_OBJ_LICENSE_INFO"

/-- `get_auth_data_tablename` from `app/models/dynamic_models.py`. -/
def get_auth_data_tablename (client_name system_name : List Nat) : List Nat :=
  cps "Z_FUE_" ++ clean_client_name client_name ++ cps "_" ++
    clean_system_name system_name ++ cps "_ROLE_AUTH_OBJ_DATA"

/-- `get_role_fiori_data_tablename` from `app/models/dynamic_models.py`. -/
def get_role_fiori_data_tablename (client_name system_name : List Nat) : List Nat :=
  cps "Z_FUE_" ++ clean_client_name client_name ++ cps "_" ++
    clean_system_name system_name ++ cps "_ROLE_FIORI_DATA"

/-- `get_role_master_derived_data_tablename` from `app/models/dynamic_models.py`. -/
def get_role_master_derived_data_tablename (client_name system_name : List Nat) : List Nat :=
  cps "Z_FUE_" ++ clean_client_name client_name ++ cps "_" ++
    clean_system_name system_name ++ cps "_ROLE_MASTER_DERVI_DATA"

/-- `get_user_data_tablename` from `app/models/dynamic_models.py`. -/
def get_user_data_tablename (client_name system_name : List Nat) : List Nat :=
  cps "Z_FUE_" ++ clean_client_name client_name ++ cps "_" ++
    clean_system_name system_name ++ cps "_USER_DATA"

/-- `get_user_role_data_tablename` from `app/models/dynamic_models.py`. -/
def get_user_role_data_tablename (client_name system_name : List Nat) : List Nat :=
  cps "Z_FUE_" ++ clean_client_name client_name ++ cps "_" ++
    clean_system_name system_name ++ cps "_USER_ROLE_DATA"

/-- ASCII whitespace codepoints, for the spec's word "whitespace". -/
def isSpaceCpSpec (c : Nat) : Bool :=
  decide (c = 32 ∨ c = 9 ∨ c = 10 ∨ c = 11 ∨ c = 12 ∨ c = 13)

/-- Normalization exactly as the spec sentence words it (claim C6):
"uppercases, replaces whitespace with underscore, strips all remaining
non-alphanumeric/non-underscore characters".  Stated for comparison with
`clean_client_name`; not a translation of the code. -/
def normalize_spec_c6 (s : List Nat) : List Nat :=
  ((s.map upperCp).map (fun c => if isSpaceCpSpec c then 95 else c)).filter isWordCp

/-- Normalization as the amended claim words it: uppercases, replaces the
space character (only) with underscore, strips all remaining
non-alphanumeric/non-underscore characters. -/
def normalize_amended_c6 (s : List Nat) : List Nat :=
  ((s.map upperCp).map replSpaceCp).filter isWordCp

/-- Descriptor produced by the dynamic `create_*_model` functions: the
generated class name and the `__tablename__` it is bound to.  The fixed
column schema is determined by the record kind and is not repeated here. -/
structure ModelDesc where
  className : List Nat
  tablename : List Nat
deriving DecidableEq

/-- Shared body of the six `create_*_model` functions in
`app/models/dynamic_models.py`: derive the table name, return the cached
descriptor if `table_name in _dynamic_models_cache`, otherwise build the
class named `Z_FUE_{clean_client}_{clean_system}{suffix}`, insert it into
the cache and return it.  The cache is threaded explicitly; insertion is
at the front, matching `lookupL`'s first-match rule. -/
def create_model_generic (tnFn : List Nat → List Nat → List Nat) (suffix : List Nat)
    (cache : List (List Nat × ModelDesc)) (client system : List Nat) :
    ModelDesc × List (List Nat × ModelDesc) :=
  let tn := tnFn client system
  match lookupL cache tn with
  | some m => (m, cache)
  | none =>
    let m : ModelDesc :=
      ⟨cps "Z_FUE_" ++ clean_client_name client ++ cps "_" ++ clean_system_name system ++ suffix, tn⟩
    (m, (tn, m) :: cache)

/-- `create_lice_data_model` from `app/models/dynamic_models.py`. -/
def create_lice_data_model (cache : List (List Nat × ModelDesc)) (client system : List Nat) :
    ModelDesc × List (List Nat × ModelDesc) :=
  create_model_generic get_lice_data_tablename (cps "LiceData") cache client system

/-- `create_auth_data_model` from `app/models/dynamic_models.py`. -/
def create_auth_data_model (cache : List (List Nat × ModelDesc)) (client system : List Nat) :
    ModelDesc × List (List Nat × ModelDesc) :=
  create_model_generic get_auth_data_tablename (cps "AuthData") cache client system

/-- `create_role_fiori_data_model` from `app/models/dynamic_models.py`. -/
def create_role_fiori_data_model (cache : List (List Nat × ModelDesc)) (client system : List Nat) :
    ModelDesc × List (List Nat × ModelDesc) :=
  create_model_generic get_role_fiori_data_tablename (cps "RoleFioriData") cache client system

/-- `create_role_master_derived_data` from `app/models/dynamic_models.py`. -/
def create_role_master_derived_data (cache : List (List Nat × ModelDesc)) (client system : List Nat) :
    ModelDesc × List (List Nat × ModelDesc) :=
  create_model_generic get_role_master_derived_data_tablename (cps "MasterDerivedData") cache client system

/-- `create_user_data` from `app/models/dynamic_models.py`. -/
def create_user_data (cache : List (List Nat × ModelDesc)) (client system : List Nat) :
    ModelDesc × List (List Nat × ModelDesc) :=
  create_model_generic get_user_data_tablename (cps "UserData") cache client system

/-- `create_user_role_data` from `app/models/dynamic_models.py`. -/
def create_user_role_data (cache : List (List Nat × ModelDesc)) (client system : List Nat) :
    ModelDesc × List (List Nat × ModelDesc) :=
  create_model_generic get_user_role_data_tablename (cps "UserRoleData") cache client system

/-- `ensure_table_exists` from `app/models/dynamic_models.py`: inspect the
database, and only when `has_table` is false create the table.  The
database's table set is the state; the returned flag records whether a
create was issued on this call. -/
def ensure_table_exists (tables : List (List Nat)) (tablename : List Nat) :
    List (List Nat) × Bool :=
  if tablename ∈ tables then (tables, false) else (tablename :: tables, true)

/-- UTF-8 continuation byte test (`0x80..0xBF`). -/
def isContByte (b : Nat) : Bool := decide (128 ≤ b ∧ b ≤ 191)

/-- Strict UTF-8 decoding of a byte list to codepoints, as Python's
`bytes.decode('utf-8')`: rejects overlong forms, surrogates and
codepoints above `0x10FFFF`; `none` models `UnicodeDecodeError`. -/
def utf8Decode : List Nat → Option (List Nat)
  | [] => some []
  | b :: bs =>
    if b ≤ 127 then (utf8Decode bs).map (b :: ·)
    else
      match bs with
      | [] => none
      | b1 :: bs1 =>
        if 194 ≤ b ∧ b ≤ 223 then
          if isContByte b1 then (utf8Decode bs1).map ((64 * (b - 192) + (b1 - 128)) :: ·)
          else none
        else
          match bs1 with
          | [] => none
          | b2 :: bs2 =>
            if 224 ≤ b ∧ b ≤ 239 then
              if ((b = 224 ∧ 160 ≤ b1 ∧ b1 ≤ 191) ∨
                  (225 ≤ b ∧ b ≤ 236 ∧ isContByte b1) ∨
                  (b = 237 ∧ 128 ≤ b1 ∧ b1 ≤ 159) ∨
                  (238 ≤ b ∧ b ≤ 239 ∧ isContByte b1)) ∧ isContByte b2 then
                (utf8Decode bs2).map
                  ((4096 * (b - 224) + 64 * (b1 - 128) + (b2 - 128)) :: ·)
              else none
            else
              match bs2 with
              | [] => none
              | b3 :: bs3 =>
                if 240 ≤ b ∧ b ≤ 244 then
                  if ((b = 240 ∧ 144 ≤ b1 ∧ b1 ≤ 191) ∨
                      (241 ≤ b ∧ b ≤ 243 ∧ isContByte b1) ∨
                      (b = 244 ∧ 128 ≤ b1 ∧ b1 ≤ 143)) ∧
                      isContByte b2 ∧ isContByte b3 then
                    (utf8Decode bs3).map
                      ((262144 * (b - 240) + 4096 * (b1 - 128) + 64 * (b2 - 128) + (b3 - 128)) :: ·)
                  else none
                else none

/-- Python's `'utf-8-sig'` codec: strip one UTF-8 byte-order mark
(`EF BB BF`) if present, then decode strict UTF-8. -/
def utf8sig_decode (bytes : List Nat) : Option (List Nat) :=
  match bytes with
  | 239 :: 187 :: 191 :: rest => utf8Decode rest
  | _ => utf8Decode bytes

/-- Python's `'latin-1'` codec: every byte maps to the codepoint of the
same value, so decoding never fails. -/
def latin1_decode (bytes : List Nat) : Option (List Nat) := some bytes

/-- Python's `'cp1252'` codec on one byte: bytes `0x80..0x9F` go through
the Windows-1252 table, with five positions undefined (decode error);
all other bytes map to themselves. -/
def cp1252Byte (b : Nat) : Option Nat :=
  if b = 128 then some 8364 else if b = 130 then some 8218
  else if b = 131 then some 402 else if b = 132 then some 8222
  else if b = 133 then some 8230 else if b = 134 then some 8224
  else if b = 135 then some 8225 else if b = 136 then some 710
  else if b = 137 then some 8240 else if b = 138 then some 352
  else if b = 139 then some 8249 else if b = 140 then some 338
  else if b = 142 then some 381 else if b = 145 then some 8216
  else if b = 146 then some 8217 else if b = 147 then some 8220
  else if b = 148 then some 8221 else if b = 149 then some 8226
  else if b = 150 then some 8211 else if b = 151 then some 8212
  else if b = 152 then some 732 else if b = 153 then some 8482
  else if b = 154 then some 353 else if b = 155 then some 8250
  else if b = 156 then some 339 else if b = 158 then some 382
  else if b = 159 then some 376
  else if b = 129 ∨ b = 141 ∨ b = 143 ∨ b = 144 ∨ b = 157 then none
  else some b

/-- Python's `'cp1252'` codec over a byte list. -/
def cp1252_decode (bytes : List Nat) : Option (List Nat) :=
  match bytes with
  | [] => some []
  | b :: bs =>
    match cp1252Byte b, cp1252_decode bs with
    | some c, some cs => some (c :: cs)
    | _, _ => none

/-- The decode fallback chain of the CSV loaders in
`app/service/data_loader_service.py`: try `utf-8-sig`, on
`UnicodeDecodeError` try `latin-1`, on a further error try `cp1252`. -/
def decode_chain (bytes : List Nat) : Option (List Nat) :=
  match utf8sig_decode bytes with
  | some t => some t
  | none =>
    match latin1_decode bytes with
    | some t => some t
    | none => cp1252_decode bytes

/-- Line-break codepoints recognised by Python `str.splitlines`. -/
def isLineBreakCp (c : Nat) : Bool :=
  decide (c = 10 ∨ c = 13 ∨ c = 11 ∨ c = 12 ∨ c = 28 ∨ c = 29 ∨ c = 30 ∨ c = 133 ∨
    c = 8232 ∨ c = 8233)

/-- Worker for `splitlinesCp`; `cur` holds the current line reversed.
`CR LF` counts as a single break, a trailing break opens no empty line. -/
def splitlinesAux (cur : List Nat) : List Nat → List (List Nat)
  | [] => if cur.isEmpty then [] else [cur.reverse]
  | [c] => if isLineBreakCp c then [cur.reverse] else [(c :: cur).reverse]
  | c :: c2 :: rest =>
    if c = 13 ∧ c2 = 10 then cur.reverse :: splitlinesAux [] rest
    else if isLineBreakCp c then cur.reverse :: splitlinesAux [] (c2 :: rest)
    else splitlinesAux (c :: cur) (c2 :: rest)

/-- Python `str.splitlines` over codepoints. -/
def splitlinesCp (s : List Nat) : List (List Nat) := splitlinesAux [] s

/-- Worker for `csvParseLine`: split on commas; `cur` is reversed. -/
def splitCommaAux (cur : List Nat) : List Nat → List (List Nat)
  | [] => [cur.reverse]
  | c :: rest =>
    if c = 44 then cur.reverse :: splitCommaAux [] rest
    else splitCommaAux (c :: cur) rest

/-- One row from `csv.reader` for one source line: an empty line yields an
empty row, otherwise the line splits into cells at commas.  CSV quoting is
not modelled; the cited loader behaviour (column counting, short rows,
empty input) does not depend on it. -/
def csvParseLine (l : List Nat) : List (List Nat) :=
  if l.isEmpty then [] else splitCommaAux [] l

/-- The error taxonomy of `DataLoaderError` in
`app/service/data_loader_service.py`, keyed by raise site:
`truncateFailed` (the delete raised), `decodeFailed` (all three codecs
raised), `emptyCsv` (`next(csv_reader)` raised `StopIteration` on
input with no lines, re-wrapped by the outer handler),
`notEnoughColumns line` ("Error processing row {line}: Not enough
columns."), `insertFailed` (`add_all`/`commit` raised), `xmlMalformed`
(`ET.ParseError`), `noItemsFound` ("No <item> elements found in XML."),
`noValidObjects` ("No valid object data found."). -/
inductive DataLoaderError where
  | truncateFailed
  | decodeFailed
  | emptyCsv
  | notEnoughColumns (line : Nat)
  | insertFailed
  | xmlMalformed
  | noItemsFound
  | noValidObjects
deriving DecidableEq

/-- The success dictionary returned by every loader:
`records_loaded` and `table_name` (`none` for the skip path). -/
structure LoadResult where
  records_loaded : Nat
  table_name : Option (List Nat)
deriving DecidableEq

/-- External failures injected by the database client: whether the delete
raises, and whether `add_all`/`commit` raises. -/
structure DbFault where
  truncate_fails : Bool
  insert_fails : Bool
deriving DecidableEq

/-- A SQLAlchemy session over one table: `committed` is the durable table
content, `pending` the in-transaction view. -/
structure DbSession (α : Type) where
  committed : List α
  pending : List α
deriving DecidableEq

/-- `db.query(Model).delete()`: clears the in-transaction rows and reports
how many were deleted. -/
def db_delete_all {α : Type} (s : DbSession α) : Nat × DbSession α :=
  (s.pending.length, ⟨s.committed, []⟩)

/-- `db.add_all(recs)`: stages rows inside the transaction. -/
def db_add_all {α : Type} (s : DbSession α) (recs : List α) : DbSession α :=
  ⟨s.committed, s.pending ++ recs⟩

/-- `db.commit()`: makes the pending rows durable. -/
def db_commit {α : Type} (s : DbSession α) : DbSession α :=
  ⟨s.pending, s.pending⟩

/-- `db.rollback()`: discards the pending rows. -/
def db_rollback {α : Type} (s : DbSession α) : DbSession α :=
  ⟨s.committed, s.committed⟩

/-- The per-row loop of the CSV loaders: every field map uses the
contiguous column indices `0..need-1`, so building the model kwargs
`{field: row[index]}` succeeds exactly when the row has at least `need`
cells and keeps those first `need` cells; `row[index]` on a shorter row
raises `IndexError`, reported as row `i+2` (`i` the 0-based data-row
index, the header being source line 1). -/
def parseRows (need : Nat) : Nat → List (List (List Nat)) →
    Except DataLoaderError (List (List (List Nat)))
  | _, [] => .ok []
  | i, row :: rest =>
    if need ≤ row.length then
      match parseRows need (i + 1) rest with
      | .ok rs => .ok (row.take need :: rs)
      | .error e => .error e
    else .error (.notEnoughColumns (i + 2))

/-- Shared body of the five CSV loaders in
`app/service/data_loader_service.py` (they differ only in field map and
table name): skip on no file; truncate inside the transaction; read and
decode the bytes through the fallback chain; `splitlines`; `next(...)`
drops the header line (raising on input with no lines); build one record
per data row; `add_all` and `commit`; any raise after the truncate rolls
the transaction back and surfaces `DataLoaderError`.  Registry resolution
and `ensure_table_exists`, which run before the transaction, are modelled
separately; `table0` is the table's committed rows at call time. -/
def load_csv_generic (need : Nat) (tablename : List Nat) (fault : DbFault)
    (table0 : List (List (List Nat))) (file : Option (List Nat)) :
    Except DataLoaderError LoadResult × List (List (List Nat)) :=
  match file with
  | none => (.ok ⟨0, none⟩, table0)
  | some bytes =>
    let s0 : DbSession (List (List Nat)) := ⟨table0, table0⟩
    if fault.truncate_fails then (.error .truncateFailed, (db_rollback s0).committed)
    else
      let s1 := (db_delete_all s0).2
      match decode_chain bytes with
      | none => (.error .decodeFailed, (db_rollback s1).committed)
      | some text =>
        match splitlinesCp text with
        | [] => (.error .emptyCsv, (db_rollback s1).committed)
        | _header :: dataLines =>
          match parseRows need 0 (dataLines.map csvParseLine) with
          | .error e => (.error e, (db_rollback s1).committed)
          | .ok recs =>
            if fault.insert_fails then
              (.error .insertFailed, (db_rollback (db_add_all s1 recs)).committed)
            else
              let s2 := db_commit (db_add_all s1 recs)
              (.ok ⟨recs.length, some tablename⟩, s2.committed)

/-- `load_auth_data_from_csv_upload` from
`app/service/data_loader_service.py`: field map of 6 columns. -/
def load_auth_data_from_csv_upload (fault : DbFault) (table0 : List (List (List Nat)))
    (file : Option (List Nat)) (client system : List Nat) :
    Except DataLoaderError LoadResult × List (List (List Nat)) :=
  load_csv_generic 6 (get_auth_data_tablename client system) fault table0 file

/-- `load_role_fiori_map_data_from_csv_upload` from
`app/service/data_loader_service.py`: field map of 13 columns. -/
def load_role_fiori_map_data_from_csv_upload (fault : DbFault) (table0 : List (List (List Nat)))
    (file : Option (List Nat)) (client system : List Nat) :
    Except DataLoaderError LoadResult × List (List (List Nat)) :=
  load_csv_generic 13 (get_role_fiori_data_tablename client system) fault table0 file

/-- `load_master_derived_role_data_from_csv_upload` from
`app/service/data_loader_service.py`: field map of 2 columns. -/
def load_master_derived_role_data_from_csv_upload (fault : DbFault)
    (table0 : List (List (List Nat))) (file : Option (List Nat)) (client system : List Nat) :
    Except DataLoaderError LoadResult × List (List (List Nat)) :=
  load_csv_generic 2 (get_role_master_derived_data_tablename client system) fault table0 file

/-- `load_user_role_map_data_from_csv_upload` from
`app/service/data_loader_service.py`: field map of 2 columns. -/
def load_user_role_map_data_from_csv_upload (fault : DbFault) (table0 : List (List (List Nat)))
    (file : Option (List Nat)) (client system : List Nat) :
    Except DataLoaderError LoadResult × List (List (List Nat)) :=
  load_csv_generic 2 (get_user_role_data_tablename client system) fault table0 file

/-- `load_user_data_from_csv_upload` from
`app/service/data_loader_service.py`: field map of 10 columns. -/
def load_user_data_from_csv_upload (fault : DbFault) (table0 : List (List (List Nat)))
    (file : Option (List Nat)) (client system : List Nat) :
    Except DataLoaderError LoadResult × List (List (List Nat)) :=
  load_csv_generic 10 (get_user_data_tablename client system) fault table0 file

/-- Test whether an `Except` is the error case. -/
def isErr {ε α : Type} : Except ε α → Bool
  | .error _ => true
  | .ok _ => false

instance {ε α : Type} [DecidableEq ε] [DecidableEq α] : DecidableEq (Except ε α) := fun a b =>
  match a, b with
  | .error e, .error e' =>
    if h : e = e' then .isTrue (by rw [h]) else .isFalse (by intro hc; cases hc; exact h rfl)
  | .ok v, .ok v' =>
    if h : v = v' then .isTrue (by rw [h]) else .isFalse (by intro hc; cases hc; exact h rfl)
  | .error _, .ok _ => .isFalse (by intro hc; cases hc)
  | .ok _, .error _ => .isFalse (by intro hc; cases hc)

/-- One `<item>` element of the license XML, as seen through
`ElementTree.findtext`: child tag name mapped to its text (an element
present with no text reads as the empty string). -/
structure Item where
  fields : List (List Nat × List Nat)
deriving DecidableEq

/-- `item.findtext(tag, default)`. -/
def findtextD (it : Item) (tag dflt : List Nat) : List Nat :=
  (lookupL it.fields tag).getD dflt

/-- `item.findtext(tag)` with its `None` default. -/
def findtextOpt (it : Item) (tag : List Nat) : Option (List Nat) :=
  lookupL it.fields tag

def tAGR_NAME : List Nat := cps "AGR_NAME"
def tOBJECT : List Nat := cps "OBJECT"
def tTTEXT : List Nat := cps "TTEXT"
def tFIELD : List Nat := cps "FIELD"
def tLOW : List Nat := cps "LOW"
def tHIGH : List Nat := cps "HIGH"
def tCLASSIF_S4 : List Nat := cps "CLASSIF_S4"
def tAGR_TEXT : List Nat := cps "AGR_TEXT"
def tAGR_CLASSIF : List Nat := cps "AGR_CLASSIF"
def tAGR_RATIO : List Nat := cps "AGR_RATIO"
def tAGR_OBJECTS : List Nat := cps "AGR_OBJECTS"
def tAGR_USERS : List Nat := cps "AGR_USERS"

/-- Role-level aggregate values held in `roles_info[agr_name]`. -/
structure RoleInfo where
  agrText : List Nat
  agrClassif : List Nat
  agrRatioV : List Nat
  agrObjects : List Nat
  agrUsers : List Nat
deriving DecidableEq

/-- The dictionary stored for a role header item (`roles_info[agr_name] = {...}`). -/
def headerInfo (it : Item) : RoleInfo :=
  ⟨findtextD it tAGR_TEXT [], findtextD it tAGR_CLASSIF [], findtextD it tAGR_RATIO [],
    findtextD it tAGR_OBJECTS (cps "0"), findtextD it tAGR_USERS (cps "0")⟩

/-- One row destined for the license/object table. -/
structure LiceRec where
  AGR_NAME : List Nat
  OBJECT : List Nat
  TTEXT : List Nat
  FIELD : List Nat
  LOW : List Nat
  HIGH : List Nat
  CLASSIF_S4 : List Nat
  AGR_TEXT : List Nat
  AGR_CLASSIF : List Nat
  AGR_RATIO : List Nat
  AGR_OBJECTS : List Nat
  AGR_USERS : List Nat
deriving DecidableEq

/-- Roles-info state: `AGR_NAME` mapped to its header aggregates, newest
entry first so `lookupL` sees the latest assignment, as a Python dict. -/
def RolesInfo : Type := List (List Nat × RoleInfo)

/-- Effect of one item on `roles_info`: an item with empty `OBJECT`, a
non-empty `AGR_NAME` and an `AGR_CLASSIF` element present stores its
aggregates under its role; any other item leaves the dict unchanged. -/
def stepRoles (ri : RolesInfo) (it : Item) : RolesInfo :=
  if findtextD it tOBJECT [] = [] then
    if findtextD it tAGR_NAME [] ≠ [] ∧ (findtextOpt it tAGR_CLASSIF).isSome then
      (findtextD it tAGR_NAME [], headerInfo it) :: ri
    else ri
  else ri

/-- Record built for a detail item (the `else` branch of the item loop):
aggregates come from `roles_info.get(agr_name, {})` when that role's
header was seen, else from the item's own same-named children, `'0'`
being the default for `AGR_OBJECTS`/`AGR_USERS` and `''` for the rest. -/
def mkDetailRec (ri : RolesInfo) (it : Item) : LiceRec :=
  let agr := findtextD it tAGR_NAME []
  { AGR_NAME := agr
    OBJECT := findtextD it tOBJECT []
    TTEXT := findtextD it tTTEXT []
    FIELD := findtextD it tFIELD []
    LOW := findtextD it tLOW []
    HIGH := findtextD it tHIGH []
    CLASSIF_S4 := findtextD it tCLASSIF_S4 []
    AGR_TEXT :=
      match lookupL ri agr with
      | some r => r.agrText
      | none => findtextD it tAGR_TEXT []
    AGR_CLASSIF :=
      match lookupL ri agr with
      | some r => r.agrClassif
      | none => findtextD it tAGR_CLASSIF []
    AGR_RATIO :=
      match lookupL ri agr with
      | some r => r.agrRatioV
      | none => findtextD it tAGR_RATIO []
    AGR_OBJECTS :=
      match lookupL ri agr with
      | some r => r.agrObjects
      | none => findtextD it tAGR_OBJECTS (cps "0")
    AGR_USERS :=
      match lookupL ri agr with
      | some r => r.agrUsers
      | none => findtextD it tAGR_USERS (cps "0") }

/-- The item loop of `load_lice_data_from_xml_upload` (lines 50–76):
items with empty `OBJECT` feed `roles_info`, items with a non-empty
`OBJECT` append a record built against the current `roles_info`. -/
def processItemsAux (ri : RolesInfo) : List Item → List LiceRec
  | [] => []
  | it :: rest =>
    if findtextD it tOBJECT [] = [] then processItemsAux (stepRoles ri it) rest
    else mkDetailRec ri it :: processItemsAux ri rest

/-- The item loop started from an empty `roles_info`. -/
def processItems (items : List Item) : List LiceRec := processItemsAux [] items

/-- `roles_info` after a list of items, starting from `ri`. -/
def rolesAfter (ri : RolesInfo) : List Item → RolesInfo
  | [] => ri
  | it :: rest => rolesAfter (stepRoles ri it) rest

/-- The XML input as the loader sees it through `ET.parse` and
`root.findall('.//asx:values/DOWNLOAD/item', namespaces)`: either the
document is malformed (`ET.ParseError`) or it is well-formed and yields
an item list. -/
inductive XmlInput where
  | malformed
  | doc (items : List Item)
deriving DecidableEq

/-- `load_lice_data_from_xml_upload` from
`app/service/data_loader_service.py`: skip on no file; truncate inside
the transaction; a malformed document, an empty item list, or an item
list yielding no records raises and rolls back; otherwise the records
are inserted and committed.  Registry resolution and
`ensure_table_exists` run before the transaction and are modelled
separately; `table0` is the table's committed rows at call time. -/
def load_lice_data_from_xml_upload (fault : DbFault) (table0 : List LiceRec)
    (file : Option XmlInput) (client system : List Nat) :
    Except DataLoaderError LoadResult × List LiceRec :=
  match file with
  | none => (.ok ⟨0, none⟩, table0)
  | some input =>
    let tn := get_lice_data_tablename client system
    let s0 : DbSession LiceRec := ⟨table0, table0⟩
    if fault.truncate_fails then (.error .truncateFailed, (db_rollback s0).committed)
    else
      let s1 := (db_delete_all s0).2
      match input with
      | .malformed => (.error .xmlMalformed, (db_rollback s1).committed)
      | .doc items =>
        if items.isEmpty then (.error .noItemsFound, (db_rollback s1).committed)
        else
          let recs := processItems items
          if recs.isEmpty then (.error .noValidObjects, (db_rollback s1).committed)
          else if fault.insert_fails then
            (.error .insertFailed, (db_rollback (db_add_all s1 recs)).committed)
          else
            let s2 := db_commit (db_add_all s1 recs)
            (.ok ⟨recs.length, some tn⟩, s2.committed)

/-- An item writes `roles_info[r]`: it has an empty `OBJECT`, its
`AGR_NAME` is the non-empty role `r`, and it has an `AGR_CLASSIF`
element. -/
def updatesRole (r : List Nat) (it : Item) : Prop :=
  findtextD it tOBJECT [] = [] ∧ findtextD it tAGR_NAME [] = r ∧
    findtextD it tAGR_NAME [] ≠ [] ∧ (findtextOpt it tAGR_CLASSIF).isSome = true

instance (r : List Nat) (it : Item) : Decidable (updatesRole r it) := by
  unfold updatesRole; infer_instance


/-! ### Character- and list-level lemmas -/

theorem upperCp_idem (c : Nat) : upperCp (upperCp c) = upperCp c := by
  unfold upperCp; split_ifs <;> omega

theorem isWordCp_upperCp (c : Nat) : isWordCp (upperCp c) = isWordCp c := by
  by_cases hc : 97 ≤ c ∧ c ≤ 122
  · simp only [isWordCp, upperCp, if_pos hc, decide_eq_decide]; omega
  · simp only [upperCp, if_neg hc]

theorem word_ne_space (c : Nat) (h : isWordCp c = true) : c ≠ 32 := by
  simp only [isWordCp, decide_eq_true_eq] at h; omega

theorem replSpaceCp_upperCp_comm (c : Nat) :
    replSpaceCp (upperCp c) = upperCp (replSpaceCp c) := by
  unfold replSpaceCp upperCp; split_ifs <;> omega

theorem map_ext_cp (f g : Nat → Nat) (h : ∀ c, f c = g c) (l : List Nat) :
    l.map f = l.map g := by
  induction l with
  | nil => rfl
  | cons a t ih => simp [h, ih]

theorem map_id_of_mem {α : Type} (f : α → α) (l : List α) (h : ∀ a ∈ l, f a = a) :
    l.map f = l := by
  induction l with
  | nil => rfl
  | cons a t ih =>
    rw [List.map_cons, h a (by simp), ih (fun b hb => h b (by simp [hb]))]

theorem filter_eq_self_of_mem {α : Type} (p : α → Bool) (l : List α)
    (h : ∀ a ∈ l, p a = true) : l.filter p = l := by
  induction l with
  | nil => rfl
  | cons a t ih =>
    rw [List.filter_cons, if_pos (h a (by simp)), ih (fun b hb => h b (by simp [hb]))]

theorem filter_map_comm_cp (f : Nat → Nat) (p : Nat → Bool) (h : ∀ c, p (f c) = p c)
    (l : List Nat) : (l.map f).filter p = (l.filter p).map f := by
  induction l with
  | nil => rfl
  | cons a t ih =>
    cases hpa : p a <;>
      simp [List.filter_cons, h, hpa, ih]

theorem mem_clean_props (s : List Nat) (a : Nat) (ha : a ∈ clean_client_name s) :
    isWordCp a = true ∧ upperCp a = a ∧ replSpaceCp a = a := by
  unfold clean_client_name at ha
  rcases List.mem_map.mp ha with ⟨b, hb, rfl⟩
  have hw : isWordCp b = true := (List.mem_filter.mp hb).2
  refine ⟨by rw [isWordCp_upperCp]; exact hw, upperCp_idem b, ?_⟩
  have : isWordCp (upperCp b) = true := by rw [isWordCp_upperCp]; exact hw
  have hne := word_ne_space _ this
  simp [replSpaceCp, hne]

/-! ### Claim theorems: normalization (C6, C8) and table naming (C10) -/

/-- Claim C6 counterexample: the tab character (codepoint 9) is
whitespace, so the claim's normalization turns it into an underscore,
but `clean_client_name` replaces only the space character and strips the
tab with the other non-word characters. -/
theorem claim_C6_counterexample :
    clean_client_name [9] = [] ∧ normalize_spec_c6 [9] = [95] ∧
      clean_client_name [9] ≠ normalize_spec_c6 [9] := by decide

/-- Claim C6 as amended: for every input string, the normalization applied
to client and system identifiers uppercases the string, replaces the space
character (U+0020) — not every whitespace character — with underscore, and
strips all remaining characters that are not alphanumeric or underscore
(other whitespace therefore being stripped); it is a pure function of its
argument, and both identifier cleaners agree with it. -/
theorem claim_C6_amended (s : List Nat) :
    clean_client_name s = normalize_amended_c6 s ∧
      clean_system_name s = normalize_amended_c6 s := by
  have hmaps : (s.map upperCp).map replSpaceCp = (s.map replSpaceCp).map upperCp := by
    rw [List.map_map, List.map_map]
    exact map_ext_cp _ _ (fun c => replSpaceCp_upperCp_comm c) s
  have key : clean_client_name s = normalize_amended_c6 s := by
    unfold clean_client_name normalize_amended_c6
    rw [hmaps, filter_map_comm_cp _ _ isWordCp_upperCp]
  exact ⟨key, key⟩

/-- Claim C8: normalization is idempotent — applying the client/system
name-cleaning function twice gives the same result as applying it once. -/
theorem claim_C8_idempotent (s : List Nat) :
    clean_client_name (clean_client_name s) = clean_client_name s ∧
      clean_system_name (clean_system_name s) = clean_system_name s := by
  have key : ∀ t : List Nat, clean_client_name (clean_client_name t) = clean_client_name t := by
    intro t
    have h1 : (clean_client_name t).map replSpaceCp = clean_client_name t :=
      map_id_of_mem _ _ (fun a ha => (mem_clean_props t a ha).2.2)
    have h2 : (clean_client_name t).filter isWordCp = clean_client_name t :=
      filter_eq_self_of_mem _ _ (fun a ha => (mem_clean_props t a ha).1)
    have h3 : (clean_client_name t).map upperCp = clean_client_name t :=
      map_id_of_mem _ _ (fun a ha => (mem_clean_props t a ha).2.1)
    conv_lhs => rw [clean_client_name, h1, h2, h3]
  exact ⟨key s, key s⟩

/-- Claim C10: table-name derivation is not injective on tenant keys —
the distinct tenants ("A B", "C") and ("A", "B C") derive the same
authorization-data table name, so they share one cache entry and one
backing table. -/
theorem claim_C10_tablename_collision :
    (cps "A B", cps "C") ≠ (cps "A", cps "B C") ∧
      get_auth_data_tablename (cps "A B") (cps "C") =
        get_auth_data_tablename (cps "A") (cps "B C") ∧
      get_lice_data_tablename (cps "A B") (cps "C") =
        get_lice_data_tablename (cps "A") (cps "B C") := by decide

/-! ### Claim theorem: registry memoization (C7) -/

/-- Claim C7: the model-construction functions are memoizing — for any
table-name derivation and class-name suffix (hence for each of the six
`create_*_model` functions), calling twice with the same cache, client
and system returns the first call's descriptor unchanged, leaves the
cache exactly as after the first call, and in particular both calls
carry the identical table name; and `ensure_table_exists` creates the
backing table at most once per name: a second call after a first one
never creates and leaves the table set unchanged. -/
theorem claim_C7_memoization :
    (∀ (tnFn : List Nat → List Nat → List Nat) (suffix : List Nat)
        (cache : List (List Nat × ModelDesc)) (client system : List Nat),
      create_model_generic tnFn suffix
          (create_model_generic tnFn suffix cache client system).2 client system =
        create_model_generic tnFn suffix cache client system ∧
      (create_model_generic tnFn suffix
          (create_model_generic tnFn suffix cache client system).2 client system).1.tablename =
        (create_model_generic tnFn suffix cache client system).1.tablename) ∧
    (∀ (tables : List (List Nat)) (tn : List Nat),
      ensure_table_exists (ensure_table_exists tables tn).1 tn =
        ((ensure_table_exists tables tn).1, false)) := by
  constructor
  · intro tnFn suffix cache client system
    refine ⟨?_, ?_⟩
    · cases hl : lookupL cache (tnFn client system) with
      | some m => simp [create_model_generic, hl]
      | none => simp [create_model_generic, hl, lookupL]
    · cases hl : lookupL cache (tnFn client system) with
      | some m => simp [create_model_generic, hl]
      | none => simp [create_model_generic, hl, lookupL]
  · intro tables tn
    by_cases hm : tn ∈ tables
    · simp [ensure_table_exists, hm]
    · simp [ensure_table_exists, hm]

/-! ### Rollback lemmas for the load pipelines (C1) -/

theorem csv_rollback_of_err (need : Nat) (tn : List Nat) (f : DbFault)
    (t0 : List (List (List Nat))) (file : Option (List Nat))
    (h : isErr (load_csv_generic need tn f t0 file).1 = true) :
    (load_csv_generic need tn f t0 file).2 = t0 := by
  cases file with
  | none => simp [load_csv_generic, isErr] at h
  | some bytes =>
    by_cases hf : f.truncate_fails
    · simp [load_csv_generic, hf, db_rollback]
    · cases hdec : decode_chain bytes with
      | none => simp [load_csv_generic, hf, hdec, db_rollback, db_delete_all]
      | some text =>
        cases hsplit : splitlinesCp text with
        | nil => simp [load_csv_generic, hf, hdec, hsplit, db_rollback, db_delete_all]
        | cons hd dl =>
          cases hp : parseRows need 0 (dl.map csvParseLine) with
          | error e =>
            simp [load_csv_generic, hf, hdec, hsplit, hp, db_rollback, db_delete_all]
          | ok recs =>
            by_cases hi : f.insert_fails
            · simp [load_csv_generic, hf, hdec, hsplit, hp, hi, db_rollback,
                db_delete_all, db_add_all]
            · simp [load_csv_generic, hf, hdec, hsplit, hp, hi, isErr] at h

theorem lice_rollback_of_err (f : DbFault) (t0 : List LiceRec) (inp : Option XmlInput)
    (c s : List Nat)
    (h : isErr (load_lice_data_from_xml_upload f t0 inp c s).1 = true) :
    (load_lice_data_from_xml_upload f t0 inp c s).2 = t0 := by
  cases inp with
  | none => simp [load_lice_data_from_xml_upload, isErr] at h
  | some input =>
    by_cases hf : f.truncate_fails
    · simp [load_lice_data_from_xml_upload, hf, db_rollback]
    · cases input with
      | malformed =>
        simp [load_lice_data_from_xml_upload, hf, db_rollback, db_delete_all]
      | doc items =>
        by_cases hempty : items.isEmpty
        · simp [load_lice_data_from_xml_upload, hf, hempty, db_rollback, db_delete_all]
        · by_cases hrecs : (processItems items).isEmpty
          · simp [load_lice_data_from_xml_upload, hf, hempty, hrecs, db_rollback,
              db_delete_all]
          · by_cases hi : f.insert_fails
            · simp [load_lice_data_from_xml_upload, hf, hempty, hrecs, hi, db_rollback,
                db_delete_all, db_add_all]
            · simp [load_lice_data_from_xml_upload, hf, hempty, hrecs, hi, isErr] at h

/-- Claim C1: for every one of the six load operations, whenever the call
fails after the transaction has begun — truncation failure, decode or
parse failure (which comes after the truncate), or insertion/commit
failure — a `DataLoaderError` is the outcome and the table's committed
contents after the failed call equal its contents before the call; in
particular a parse failure occurring after the truncate also undoes the
truncate. -/
theorem claim_C1_rollback_on_error :
    (∀ (f : DbFault) (t0 : List LiceRec) (inp : Option XmlInput) (c s : List Nat),
      isErr (load_lice_data_from_xml_upload f t0 inp c s).1 = true →
        (load_lice_data_from_xml_upload f t0 inp c s).2 = t0) ∧
    (∀ (f : DbFault) (t0 : List (List (List Nat))) (file : Option (List Nat)) (c s : List Nat),
      isErr (load_auth_data_from_csv_upload f t0 file c s).1 = true →
        (load_auth_data_from_csv_upload f t0 file c s).2 = t0) ∧
    (∀ (f : DbFault) (t0 : List (List (List Nat))) (file : Option (List Nat)) (c s : List Nat),
      isErr (load_role_fiori_map_data_from_csv_upload f t0 file c s).1 = true →
        (load_role_fiori_map_data_from_csv_upload f t0 file c s).2 = t0) ∧
    (∀ (f : DbFault) (t0 : List (List (List Nat))) (file : Option (List Nat)) (c s : List Nat),
      isErr (load_master_derived_role_data_from_csv_upload f t0 file c s).1 = true →
        (load_master_derived_role_data_from_csv_upload f t0 file c s).2 = t0) ∧
    (∀ (f : DbFault) (t0 : List (List (List Nat))) (file : Option (List Nat)) (c s : List Nat),
      isErr (load_user_role_map_data_from_csv_upload f t0 file c s).1 = true →
        (load_user_role_map_data_from_csv_upload f t0 file c s).2 = t0) ∧
    (∀ (f : DbFault) (t0 : List (List (List Nat))) (file : Option (List Nat)) (c s : List Nat),
      isErr (load_user_data_from_csv_upload f t0 file c s).1 = true →
        (load_user_data_from_csv_upload f t0 file c s).2 = t0) :=
  ⟨fun f t0 inp c s h => lice_rollback_of_err f t0 inp c s h,
   fun f t0 file _ _ h => csv_rollback_of_err 6 _ f t0 file h,
   fun f t0 file _ _ h => csv_rollback_of_err 13 _ f t0 file h,
   fun f t0 file _ _ h => csv_rollback_of_err 2 _ f t0 file h,
   fun f t0 file _ _ h => csv_rollback_of_err 2 _ f t0 file h,
   fun f t0 file _ _ h => csv_rollback_of_err 10 _ f t0 file h⟩

/-- Claim C1 witness: a parse failure (short row, after the truncate) on a
non-empty table leaves the table exactly as it was. -/
theorem claim_C1_rollback_on_error_witness :
    isErr (load_auth_data_from_csv_upload ⟨false, false⟩ [[cps "old"]]
        (some (cps "h\na,b")) (cps "A") (cps "S")).1 = true ∧
      (load_auth_data_from_csv_upload ⟨false, false⟩ [[cps "old"]]
        (some (cps "h\na,b")) (cps "A") (cps "S")).2 = [[cps "old"]] :=
  ⟨by decide, claim_C1_rollback_on_error.2.1 ⟨false, false⟩ [[cps "old"]]
    (some (cps "h\na,b")) (cps "A") (cps "S") (by decide)⟩

/-! ### Short-row detection (C2) and empty input (C3) -/

theorem parseRows_first_short (need : Nat) :
    ∀ (rows : List (List (List Nat))) (i0 i : Nat) (r : List (List Nat)),
      rows[i]? = some r → r.length < need →
      (∀ j r', j < i → rows[j]? = some r' → need ≤ r'.length) →
      parseRows need i0 rows = .error (.notEnoughColumns (i0 + i + 2)) := by
  intro rows
  induction rows with
  | nil => intro i0 i r hget; simp at hget
  | cons row rest ih =>
    intro i0 i r hget hlen hpre
    cases i with
    | zero =>
      rw [List.getElem?_cons_zero] at hget
      injection hget with hr; subst hr
      have : ¬ need ≤ row.length := by omega
      simp [parseRows, this]
    | succ i' =>
      have hrow : need ≤ row.length :=
        hpre 0 row (Nat.succ_pos i') (by rw [List.getElem?_cons_zero])
      have hget' : rest[i']? = some r := by rwa [List.getElem?_cons_succ] at hget
      have hpre' : ∀ j r', j < i' → rest[j]? = some r' → need ≤ r'.length := by
        intro j r' hj hgj
        exact hpre (j + 1) r' (by omega) (by rwa [List.getElem?_cons_succ])
      have hrec := ih (i0 + 1) i' r hget' hlen hpre'
      have harith : i0 + 1 + i' + 2 = i0 + (i' + 1) + 2 := by omega
      rw [harith] at hrec
      simp [parseRows, hrow, hrec]

/-- Claim C2: for every CSV load (any column requirement `need`, hence all
five CSV kinds), if the data row at 0-based index `i` is the first one
with fewer cells than the schema requires, the whole load fails with the
parse error carrying the 1-based source line number `i + 2` (the header
counting as line 1), nothing is committed and the table is left exactly
as it was before the call. -/
theorem claim_C2_short_row (need : Nat) (tn : List Nat) (f : DbFault)
    (t0 : List (List (List Nat))) (bytes text hd : List Nat) (dl : List (List Nat))
    (i : Nat) (r : List (List Nat))
    (hf : f.truncate_fails = false)
    (hdec : decode_chain bytes = some text)
    (hsplit : splitlinesCp text = hd :: dl)
    (hget : (dl.map csvParseLine)[i]? = some r)
    (hlen : r.length < need)
    (hpre : ∀ j r', j < i → (dl.map csvParseLine)[j]? = some r' → need ≤ r'.length) :
    load_csv_generic need tn f t0 (some bytes) =
      (.error (.notEnoughColumns (i + 2)), t0) := by
  have hp := parseRows_first_short need (dl.map csvParseLine) 0 i r hget hlen hpre
  have harith : 0 + i + 2 = i + 2 := by omega
  rw [harith] at hp
  simp [load_csv_generic, hf, hdec, hsplit, hp, db_rollback, db_delete_all]

/-- Claim C2 witness: a 6-column kind fed a 2-cell data row at index 0
fails with line number 2 and preserves the prior table row. -/
theorem claim_C2_short_row_witness :
    load_csv_generic 6 (get_auth_data_tablename (cps "A") (cps "S")) ⟨false, false⟩
        [[cps "old"]] (some (cps "h\na,b")) =
      (.error (.notEnoughColumns 2), [[cps "old"]]) :=
  claim_C2_short_row 6 (get_auth_data_tablename (cps "A") (cps "S")) ⟨false, false⟩
    [[cps "old"]] (cps "h\na,b") (cps "h\na,b") (cps "h") [cps "a,b"] 0
    [cps "a", cps "b"] (by decide) (by decide) (by decide) (by decide) (by decide)
    (fun j r' hj _ => absurd hj (Nat.not_lt_zero j))

/-- Claim C3 counterexample: the wholly empty CSV input has zero data
rows, yet the load is an error (`next(csv_reader)` raises on input with
no lines) and the table keeps its prior contents instead of being
emptied. -/
theorem claim_C3_counterexample :
    isErr (load_auth_data_from_csv_upload ⟨false, false⟩ [[cps "old"]] (some [])
        (cps "A") (cps "S")).1 = true ∧
      (load_auth_data_from_csv_upload ⟨false, false⟩ [[cps "old"]] (some [])
        (cps "A") (cps "S")).2 = [[cps "old"]] := by decide

/-- Claim C3 as amended: for every CSV input that decodes to at least one
line but has zero data rows, and absent database faults, the load is not
an error: the single header line is skipped, the result reports zero
records loaded, and the truncate still commits, so the net effect is that
the tenant's table is emptied.  (A wholly empty input — no lines at all —
instead raises a `DataLoaderError` and rolls back, per the
counterexample.) -/
theorem claim_C3_amended (need : Nat) (tn : List Nat) (t0 : List (List (List Nat)))
    (bytes text hd : List Nat)
    (hdec : decode_chain bytes = some text)
    (hsplit : splitlinesCp text = [hd]) :
    load_csv_generic need tn ⟨false, false⟩ t0 (some bytes) = (.ok ⟨0, some tn⟩, []) := by
  simp [load_csv_generic, hdec, hsplit, parseRows, db_rollback, db_delete_all,
    db_add_all, db_commit]

/-- Claim C3 witness: a header-only file empties a previously non-empty
table and reports zero records. -/
theorem claim_C3_amended_witness :
    load_csv_generic 6 (get_auth_data_tablename (cps "A") (cps "S")) ⟨false, false⟩
        [[cps "old"]] (some (cps "HEADER")) =
      (.ok ⟨0, some (get_auth_data_tablename (cps "A") (cps "S"))⟩, []) :=
  claim_C3_amended 6 (get_auth_data_tablename (cps "A") (cps "S")) [[cps "old"]]
    (cps "HEADER") (cps "HEADER") (cps "HEADER") (by decide) (by decide)

/-! ### Decode-chain totality (C9) -/

theorem parseRows_error_shape (need : Nat) :
    ∀ (i0 : Nat) (rows : List (List (List Nat))) (e : DataLoaderError),
      parseRows need i0 rows = .error e → ∃ n, e = .notEnoughColumns n := by
  intro i0 rows
  induction rows generalizing i0 with
  | nil => intro e he; simp [parseRows] at he
  | cons row rest ih =>
    intro e he
    by_cases hrow : need ≤ row.length
    · rw [parseRows, if_pos hrow] at he
      cases hrec : parseRows need (i0 + 1) rest with
      | ok rs => rw [hrec] at he; simp at he
      | error e' =>
        rw [hrec] at he
        injection he with he'
        exact he' ▸ ih (i0 + 1) e' hrec
    · rw [parseRows, if_neg hrow] at he
      injection he with he'
      exact ⟨i0 + 2, he'.symm⟩

/-- Claim C9: the encoding fallback chain always succeeds — Latin-1
decoding is total over byte sequences, so the result is already fixed
before the cp1252 branch, which is therefore unreachable along with any
decode-failure path, and no CSV load ever fails because of text
decoding. -/
theorem claim_C9_decode_total :
    (∀ bytes : List Nat,
      decode_chain bytes =
        some (match utf8sig_decode bytes with | some t => t | none => bytes)) ∧
    (∀ (need : Nat) (tn : List Nat) (f : DbFault) (t0 : List (List (List Nat)))
        (file : Option (List Nat)),
      decide ((load_csv_generic need tn f t0 file).1 =
        .error .decodeFailed) = false) := by
  have hchain : ∀ bytes : List Nat,
      decode_chain bytes =
        some (match utf8sig_decode bytes with | some t => t | none => bytes) := by
    intro bytes
    cases h : utf8sig_decode bytes <;> simp [decode_chain, latin1_decode, h]
  refine ⟨hchain, ?_⟩
  intro need tn f t0 file
  rw [decide_eq_false_iff_not]
  cases file with
  | none => simp [load_csv_generic]
  | some bytes =>
    by_cases hf : f.truncate_fails
    · simp [load_csv_generic, hf]
    · have hsome := hchain bytes
      cases hdc : decode_chain bytes with
      | none => rw [hdc] at hsome; simp at hsome
      | some text =>
        cases hsplit : splitlinesCp text with
        | nil => simp [load_csv_generic, hf, hdc, hsplit]
        | cons hd dl =>
          cases hp : parseRows need 0 (dl.map csvParseLine) with
          | error e =>
            rcases parseRows_error_shape need 0 (dl.map csvParseLine) e hp with ⟨n, rfl⟩
            simp [load_csv_generic, hf, hdc, hsplit, hp]
          | ok recs =>
            by_cases hi : f.insert_fails <;>
              simp [load_csv_generic, hf, hdc, hsplit, hp, hi]

/-! ### Item-loop lemmas for the XML pipeline (C4, C5) -/

theorem stepRoles_not_updates (r : List Nat) (ri : RolesInfo) (it : Item)
    (h : ¬ updatesRole r it) : lookupL (stepRoles ri it) r = lookupL ri r := by
  unfold stepRoles
  by_cases h1 : findtextD it tOBJECT [] = []
  · rw [if_pos h1]
    by_cases h2 : findtextD it tAGR_NAME [] ≠ [] ∧ (findtextOpt it tAGR_CLASSIF).isSome
    · rw [if_pos h2]
      have hkey : findtextD it tAGR_NAME [] ≠ r := by
        intro hk
        exact h ⟨h1, hk, h2.1, h2.2⟩
      simp [lookupL, hkey]
    · rw [if_neg h2]
  · rw [if_neg h1]

theorem rolesAfter_append (l1 l2 : List Item) :
    ∀ ri : RolesInfo, rolesAfter ri (l1 ++ l2) = rolesAfter (rolesAfter ri l1) l2 := by
  induction l1 with
  | nil => intro ri; rfl
  | cons it rest ih =>
    intro ri
    simp only [List.cons_append, rolesAfter]
    exact ih (stepRoles ri it)

theorem rolesAfter_no_updates (r : List Nat) (l : List Item)
    (h : ∀ it ∈ l, ¬ updatesRole r it) :
    ∀ ri : RolesInfo, lookupL (rolesAfter ri l) r = lookupL ri r := by
  induction l with
  | nil => intro ri; rfl
  | cons it rest ih =>
    intro ri
    rw [rolesAfter, ih (fun x hx => h x (by simp [hx])),
      stepRoles_not_updates r ri it (h it (by simp))]

theorem processItemsAux_append (l1 l2 : List Item) :
    ∀ ri : RolesInfo, processItemsAux ri (l1 ++ l2) =
      processItemsAux ri l1 ++ processItemsAux (rolesAfter ri l1) l2 := by
  induction l1 with
  | nil => intro ri; simp [processItemsAux, rolesAfter]
  | cons it rest ih =>
    intro ri
    by_cases hobj : findtextD it tOBJECT [] = []
    · simp only [List.cons_append, processItemsAux, if_pos hobj, rolesAfter]
      exact ih (stepRoles ri it)
    · have hstep : stepRoles ri it = ri := by simp [stepRoles, hobj]
      simp only [List.cons_append, processItemsAux, if_neg hobj, rolesAfter, hstep]
      exact congrArg (List.cons (mkDetailRec ri it)) (ih ri)

theorem processItemsAux_length (items : List Item) :
    ∀ ri : RolesInfo, (processItemsAux ri items).length =
      (items.filter (fun it => decide (¬ findtextD it tOBJECT [] = []))).length := by
  induction items with
  | nil => intro ri; rfl
  | cons it rest ih =>
    intro ri
    by_cases hobj : findtextD it tOBJECT [] = []
    · simp [processItemsAux, hobj, List.filter_cons, ih]
    · simp [processItemsAux, hobj, List.filter_cons, ih]

/-! ### Claim theorems: XML load error conditions (C4) -/

/-- Claim C4 counterexample: a well-formed document with a non-empty item
list — a single header row for a role with no detail rows — still fails
the load ("No valid object data found."), so the load does not fail
*exactly* when the document is malformed or no items are found. -/
theorem claim_C4_counterexample :
    ([⟨[(tAGR_NAME, cps "R1"), (tAGR_CLASSIF, cps "C")]⟩] : List Item) ≠ [] ∧
      load_lice_data_from_xml_upload ⟨false, false⟩ []
          (some (.doc [⟨[(tAGR_NAME, cps "R1"), (tAGR_CLASSIF, cps "C")]⟩]))
          (cps "A") (cps "S") =
        (.error .noValidObjects, []) := by decide

/-- Claim C4 as amended: absent database faults, the XML load fails with a
parse error exactly when the document is malformed, no item elements are
found at all, or the items yield no detail records; header rows for roles
with no detail rows produce no output records (one record per item with a
non-empty OBJECT, none for the rest), and do not make the load an error
provided at least one detail record exists. -/
theorem claim_C4_amended :
    (∀ (t0 : List LiceRec) (c s : List Nat),
      load_lice_data_from_xml_upload ⟨false, false⟩ t0 (some .malformed) c s =
        (.error .xmlMalformed, t0)) ∧
    (∀ (t0 : List LiceRec) (items : List Item) (c s : List Nat),
      isErr (load_lice_data_from_xml_upload ⟨false, false⟩ t0 (some (.doc items)) c s).1 =
          true ↔
        items = [] ∨ processItems items = []) ∧
    (∀ (ri : RolesInfo) (items : List Item),
      (processItemsAux ri items).length =
        (items.filter (fun it => decide (¬ findtextD it tOBJECT [] = []))).length) := by
  refine ⟨?_, ?_, fun ri items => processItemsAux_length items ri⟩
  · intro t0 c s
    simp [load_lice_data_from_xml_upload, db_rollback, db_delete_all]
  · intro t0 items c s
    by_cases hempty : items.isEmpty
    · rw [List.isEmpty_iff] at hempty
      simp [load_lice_data_from_xml_upload, hempty, isErr, db_rollback, db_delete_all]
    · rw [List.isEmpty_iff] at hempty
      by_cases hrecs : (processItems items).isEmpty
      · rw [List.isEmpty_iff] at hrecs
        simp [load_lice_data_from_xml_upload, hempty, hrecs, isErr, db_rollback,
          db_delete_all]
      · rw [List.isEmpty_iff] at hrecs
        simp [load_lice_data_from_xml_upload, hempty, hrecs, isErr, db_rollback,
          db_delete_all, db_add_all, db_commit]

/-! ### Claim theorem: XML aggregate propagation (C5) -/

/-- Claim C5: in the XML load, a detail item whose role had a header item
earlier in the item sequence — with no later header for the same role in
between — produces exactly one record, whose `AGR_CLASSIF` equals the
header's `AGR_CLASSIF` value `c` (first conjunct: header for role `r`
with no OBJECT and `AGR_CLASSIF` present, detail for `r` with a
non-empty OBJECT and regardless of its own fields); and a detail item
whose role has no previously seen header falls back to its own
same-named fields, `AGR_OBJECTS` and `AGR_USERS` defaulting to "0" and
the text aggregate fields to the empty string when absent (second
conjunct). -/
theorem claim_C5_aggregate_propagation :
    (∀ (pre mid post : List Item) (hdr dtl : Item) (r c o : List Nat),
      findtextD hdr tOBJECT [] = [] →
      findtextD hdr tAGR_NAME [] = r → r ≠ [] →
      findtextOpt hdr tAGR_CLASSIF = some c →
      findtextD dtl tAGR_NAME [] = r →
      findtextD dtl tOBJECT [] = o → o ≠ [] →
      (∀ it ∈ mid, ¬ updatesRole r it) →
      processItems (pre ++ hdr :: (mid ++ dtl :: post)) =
        processItems (pre ++ hdr :: mid) ++
          mkDetailRec (rolesAfter [] (pre ++ hdr :: mid)) dtl ::
            processItemsAux (rolesAfter [] (pre ++ hdr :: mid)) post ∧
      (mkDetailRec (rolesAfter [] (pre ++ hdr :: mid)) dtl).AGR_CLASSIF = c) ∧
    (∀ (pre post : List Item) (dtl : Item) (r o : List Nat),
      findtextD dtl tAGR_NAME [] = r →
      findtextD dtl tOBJECT [] = o → o ≠ [] →
      (∀ it ∈ pre, ¬ updatesRole r it) →
      processItems (pre ++ dtl :: post) =
        processItems pre ++
          ({ AGR_NAME := r, OBJECT := o,
             TTEXT := findtextD dtl tTTEXT [], FIELD := findtextD dtl tFIELD [],
             LOW := findtextD dtl tLOW [], HIGH := findtextD dtl tHIGH [],
             CLASSIF_S4 := findtextD dtl tCLASSIF_S4 [],
             AGR_TEXT := findtextD dtl tAGR_TEXT [],
             AGR_CLASSIF := findtextD dtl tAGR_CLASSIF [],
             AGR_RATIO := findtextD dtl tAGR_RATIO [],
             AGR_OBJECTS := findtextD dtl tAGR_OBJECTS (cps "0"),
             AGR_USERS := findtextD dtl tAGR_USERS (cps "0") } : LiceRec) ::
            processItemsAux (rolesAfter [] pre) post) := by
  constructor
  · intro pre mid post hdr dtl r c o hH1 hH2 hH3 hH4 hD1 hD2 hD3 hmid
    have hobj : ¬ findtextD dtl tOBJECT [] = [] := by rw [hD2]; exact hD3
    have hstep : stepRoles (rolesAfter [] pre) hdr =
        (r, headerInfo hdr) :: rolesAfter [] pre := by
      unfold stepRoles
      rw [if_pos hH1, if_pos ⟨by rw [hH2]; exact hH3, by rw [hH4]; rfl⟩, hH2]
    have h1 : rolesAfter [] (pre ++ hdr :: mid) =
        rolesAfter (stepRoles (rolesAfter [] pre) hdr) mid := by
      rw [rolesAfter_append pre (hdr :: mid) []]; rfl
    have hlook : lookupL (rolesAfter [] (pre ++ hdr :: mid)) r = some (headerInfo hdr) := by
      rw [h1, rolesAfter_no_updates r mid hmid, hstep]
      simp [lookupL]
    constructor
    · have hsplit : pre ++ hdr :: (mid ++ dtl :: post) =
          (pre ++ hdr :: mid) ++ (dtl :: post) := by simp
      rw [processItems, hsplit,
        processItemsAux_append (pre ++ hdr :: mid) (dtl :: post) []]
      simp only [processItemsAux, if_neg hobj]
      rfl
    · have hclass : findtextD hdr tAGR_CLASSIF [] = c := by
        unfold findtextD
        rw [show lookupL hdr.fields tAGR_CLASSIF = some c from hH4]
        rfl
      simp [mkDetailRec, hD1, hlook, headerInfo, hclass]
  · intro pre post dtl r o hD1 hD2 hD3 hpre
    have hobj : ¬ findtextD dtl tOBJECT [] = [] := by rw [hD2]; exact hD3
    have hlook : lookupL (rolesAfter [] pre) r = none := by
      rw [rolesAfter_no_updates r pre hpre]; rfl
    have hrec : mkDetailRec (rolesAfter [] pre) dtl =
        ({ AGR_NAME := r, OBJECT := o,
           TTEXT := findtextD dtl tTTEXT [], FIELD := findtextD dtl tFIELD [],
           LOW := findtextD dtl tLOW [], HIGH := findtextD dtl tHIGH [],
           CLASSIF_S4 := findtextD dtl tCLASSIF_S4 [],
           AGR_TEXT := findtextD dtl tAGR_TEXT [],
           AGR_CLASSIF := findtextD dtl tAGR_CLASSIF [],
           AGR_RATIO := findtextD dtl tAGR_RATIO [],
           AGR_OBJECTS := findtextD dtl tAGR_OBJECTS (cps "0"),
           AGR_USERS := findtextD dtl tAGR_USERS (cps "0") } : LiceRec) := by
      simp [mkDetailRec, hD1, hD2, hlook]
    rw [processItems, processItemsAux_append pre (dtl :: post) []]
    simp only [processItemsAux, if_neg hobj]
    rw [hrec]
    rfl

/-- Claim C5 witness: a header for role "R1" with AGR_CLASSIF "C"
followed by a detail for role "R1" with OBJECT "O1" and no own
AGR_CLASSIF yields the record with propagated AGR_CLASSIF "C". -/
theorem claim_C5_aggregate_propagation_witness :
    processItems [(⟨[( tAGR_NAME, cps "R1"), ( tAGR_CLASSIF, cps "C")]⟩ : Item),
        (⟨[( tAGR_NAME, cps "R1"), ( tOBJECT, cps "O1")]⟩ : Item)] =
      processItems [(⟨[( tAGR_NAME, cps "R1"), ( tAGR_CLASSIF, cps "C")]⟩ : Item)] ++
        mkDetailRec
          (rolesAfter [] [(⟨[( tAGR_NAME, cps "R1"), ( tAGR_CLASSIF, cps "C")]⟩ : Item)])
          (⟨[( tAGR_NAME, cps "R1"), ( tOBJECT, cps "O1")]⟩ : Item) ::
          processItemsAux
            (rolesAfter [] [(⟨[( tAGR_NAME, cps "R1"), ( tAGR_CLASSIF, cps "C")]⟩ : Item)])
            [] ∧
    (mkDetailRec
        (rolesAfter [] [(⟨[( tAGR_NAME, cps "R1"), ( tAGR_CLASSIF, cps "C")]⟩ : Item)])
        (⟨[( tAGR_NAME, cps "R1"), ( tOBJECT, cps "O1")]⟩ : Item)).AGR_CLASSIF = cps "C" :=
  claim_C5_aggregate_propagation.1 [] [] []
    (⟨[( tAGR_NAME, cps "R1"), ( tAGR_CLASSIF, cps "C")]⟩ : Item)
    (⟨[( tAGR_NAME, cps "R1"), ( tOBJECT, cps "O1")]⟩ : Item)
    (cps "R1") (cps "C") (cps "O1")
    (by decide) (by decide) (by decide) (by decide) (by decide) (by decide) (by decide)
    (by simp)
